import Mathlib

/-!
Shallow embedding of `docker_volume_watcher/container_notifier.py` from the
repository fchastanet/docker-windows-volume-watcher.

The embedding models:

* the `debounce` decorator and its closure cell `old_time` (time is modelled
  as a rational number; `time.time()` values are supplied as data: each
  invocation carries its arrival instant and the duration of the wrapped
  call, so the second `time.time()` reading is arrival + duration);
* the fact that `@debounce(2)` runs once at class-definition time, so the
  single `old_time` cell is shared by every `ContainerNotifier` instance;
* the path computation of `__change_handler` (`os.path.relpath` on already
  absolute, normalised inputs, backslash normalisation via
  `.replace(chr(92), chr(47))`, and `posixpath.join`), parameterised by the
  host platform separator;
* the event filtering of watchdog's `PatternMatchingEventHandler` as
  configured in `ContainerNotifier.__init__` (`patterns=None` which means
  match-all, `ignore_patterns=exclude_patterns`, `ignore_directories=False`),
  with `fnmatch` modelled on the glob fragment the watcher uses (star,
  question mark and literal characters);
* the `notify` two-step exec transaction together with its try/except
  handling: the only exceptions the try block can raise are
  `docker.errors.APIError` out of `container.exec_run` (modelled as the
  `apiError` outcome of the exec oracle) and the explicitly raised
  `NonZeroExitError`, and both are caught, so `notify` is modelled as a
  total function returning the trace of exec calls, the recovered failure
  classification, and the log lines.

External collaborators (the docker exec capability, the watchdog observer)
are modelled as oracles/parameters, following the spec's external-interface
section. String helpers (`splitNonEmpty`, `stripChars`, ...) are written as
structural recursions over the character list so that every definition
evaluates by kernel reduction.
-/

namespace DockerVolumeWatcher

/-! ## Debounce gate (`debounce` / `wrapped` in the source) -/

/-- Invocation of the debounced function: `arrival` is the value of the first
`time.time()` reading inside `wrapped` (`new_time`), and `dur` is the time the
wrapped call takes, so the second `time.time()` reading — the one stored into
`old_time` — is `arrival + dur`. -/
structure Invocation where
  arrival : ℚ
  dur : ℚ
deriving DecidableEq

/-- Guard of `wrapped`:
`old_time` is `None`, `or new_time - old_time >= bounce_delay`. -/
def gateFires (d : ℚ) (old : Option ℚ) (t : ℚ) : Bool :=
  match old with
  | none => true
  | some prev => decide (t - prev ≥ d)

/-- Single invocation of `wrapped`: when the gate fires, the wrapped operation
runs and its result is returned (`some`), and the timestamp recorded into
`old_time` is taken after the call completes (`arrival + dur`); otherwise the
operation does not run, `None` is returned (modelled as `none`) and the cell
is left unchanged. -/
def debounceStep {α : Type} (d : ℚ) (op : Invocation → α) (old : Option ℚ)
    (inv : Invocation) : Option α × Option ℚ :=
  if gateFires d old inv.arrival then
    (some (op inv), some (inv.arrival + inv.dur))
  else
    (none, old)

/-- Value of the `old_time` cell after a sequence of invocations of
`wrapped`. -/
def stateAfter (d : ℚ) (old : Option ℚ) : List Invocation → Option ℚ
  | [] => old
  | inv :: rest =>
      stateAfter d
        (if gateFires d old inv.arrival then some (inv.arrival + inv.dur) else old) rest

/-- Number of invocations in the list that actually execute the wrapped
operation. -/
def execCount (d : ℚ) (old : Option ℚ) : List Invocation → ℕ
  | [] => 0
  | inv :: rest =>
      if gateFires d old inv.arrival then
        1 + execCount d (some (inv.arrival + inv.dur)) rest
      else
        execCount d old rest

/-- Invocation used in the burst scenario: arrival `k/10` time units, wrapped
call instantaneous. -/
def burstInv (k : ℕ) : Invocation := ⟨(k : ℚ) / 10, 0⟩

/-- Burst scenario of the spec: `n` invocations arriving at
`0, 1/10, ..., (n-1)/10`. -/
def burst (n : ℕ) : List Invocation := (List.range n).map burstInv

/-! ## Class-level sharing of the debounce state

`@debounce(2)` decorates `__change_handler` when the class body of
`ContainerNotifier` is evaluated, so `decorate` runs exactly once and the
closure cell `old_time` is one dictionary shared by every instance; `self`
travels inside `*args` and is never inspected by `wrapped`. -/

/-- Invocation of `ContainerNotifier.__change_handler`: `inst` identifies the
`ContainerNotifier` instance the bound method was taken from (`self`),
`arrival` and `dur` are as in `Invocation`. -/
structure HandlerCall where
  inst : ℕ
  arrival : ℚ
  dur : ℚ
deriving DecidableEq

/-- Value of the single class-level `old_time` cell after a sequence of
`__change_handler` calls, possibly interleaved across instances. -/
def sharedStateAfter (d : ℚ) (old : Option ℚ) : List HandlerCall → Option ℚ
  | [] => old
  | c :: rest =>
      sharedStateAfter d
        (if gateFires d old c.arrival then some (c.arrival + c.dur) else old) rest

/-- Whether the i-th handler call of the interleaved sequence executes the
wrapped `__change_handler` body (the run starts from a fresh gate,
`old_time = None`). -/
def sharedFiresAt (d : ℚ) (calls : List HandlerCall) (i : ℕ) : Bool :=
  match calls.drop i with
  | [] => false
  | c :: _ => gateFires d (sharedStateAfter d none (calls.take i)) c.arrival

/-! ## Path translation (`__change_handler` body) -/

/-- Splitting of a character list on a separator, keeping empty groups
(mirrors Python `str.split(sep)`); the result is never `[]`. -/
def splitChars (sep : Char) : List Char → List (List Char)
  | [] => [[]]
  | c :: cs =>
      match splitChars sep cs with
      | [] => [[]]
      | g :: gs => if c = sep then [] :: g :: gs else (c :: g) :: gs

/-- Components of a path: split on the separator and drop empty parts — this
is the `[x for x in path.split(sep) if x]` step of `os.path.relpath`
(`abspath` is the identity on the already absolute, normalised paths the
watcher handles). -/
def splitNonEmpty (sep : Char) (s : String) : List String :=
  ((splitChars sep s.data).map String.mk).filter (fun x => x ≠ "")

/-- Length of the longest common elementwise prefix of two component lists
(the `commonprefix` step of `os.path.relpath`). -/
def commonPrefixLen : List String → List String → ℕ
  | a :: as, b :: bs => if a = b then commonPrefixLen as bs + 1 else 0
  | _, _ => 0

/-- Joining of relative components with the platform separator — the final
`join(*rel_list)` of `os.path.relpath`. -/
def joinComponents (sep : Char) : List String → String
  | [] => ""
  | [a] => a
  | a :: rest => a ++ String.singleton sep ++ joinComponents sep rest

/-- Model of `os.path.relpath(path, start)` on absolute normalised inputs,
parameterised by the platform separator (`/` on POSIX hosts, backslash on
Windows hosts). -/
def relpath (sep : Char) (path start : String) : String :=
  let path_list := splitNonEmpty sep path
  let start_list := splitNonEmpty sep start
  let i := commonPrefixLen start_list path_list
  let rel_list := List.replicate (start_list.length - i) ".." ++ path_list.drop i
  if rel_list = [] then "." else joinComponents sep rel_list

/-- Model of `.replace(chr(92), chr(47))`: both arguments are one-character
strings, so the replacement is a character map. -/
def backslashToSlash (s : String) : String :=
  String.mk (s.data.map (fun c => if c = '\\' then '/' else c))

/-- Whether the first character of the string is a slash
(`b.startswith(sep)` with `sep` the POSIX separator). -/
def headIsSlash (s : String) : Bool :=
  match s.data with
  | [] => false
  | c :: _ => c = '/'

/-- Whether the last character of the string is a slash (`path.endswith(sep)`
with `sep` the POSIX separator). -/
def lastIsSlash (s : String) : Bool :=
  match s.data.getLast? with
  | some c => c = '/'
  | none => false

/-- Model of `posixpath.join(a, b)`: take `b` if it is absolute, otherwise
append it to `a`, inserting a slash unless `a` is empty or already ends with
one. -/
def posixJoin (a b : String) : String :=
  if headIsSlash b then b
  else if a = "" ∨ lastIsSlash a then a ++ b
  else a ++ "/" ++ b

/-- Path computation of `__change_handler`:
`posixpath.join(container_dir, relpath(host_path, host_dir).replace(chr(92), chr(47)))`. -/
def translateHostPath (sep : Char) (host_dir container_dir host_path : String) : String :=
  posixJoin container_dir (backslashToSlash (relpath sep host_path host_dir))

/-! ## Filesystem events and the watchdog dispatch filter -/

/-- Watchdog filesystem event: `src_path` is always present, `dest_path` is
present exactly on move events (`hasattr(event, 'dest_path')` in the source),
and `is_directory` tells whether the subject of the event is a directory. -/
structure FsEvent where
  src_path : String
  dest_path : Option String
  is_directory : Bool
deriving DecidableEq

/-- Path selection of `__change_handler`:
`event.dest_path if hasattr(event, 'dest_path') else event.src_path`. -/
def eventHostPath (e : FsEvent) : String :=
  match e.dest_path with
  | some d => d
  | none => e.src_path

/-- Full host-side pipeline of `__change_handler` up to the argument of
`self.notify`: select the event path, then translate it. -/
def changeHandlerPath (sep : Char) (host_dir container_dir : String) (e : FsEvent) : String :=
  translateHostPath sep host_dir container_dir (eventHostPath e)

/-- Suffix lists of a character list, longest first, always ending with the
empty suffix. -/
def suffixes : List Char → List (List Char)
  | [] => [[]]
  | c :: cs => (c :: cs) :: suffixes cs

/-- Model of `fnmatch` on the glob fragment the watcher uses: a star matches
any (possibly empty) character sequence, a question mark matches exactly one
character, and every other pattern character matches itself. -/
def globMatch : List Char → List Char → Bool
  | [], s => s.isEmpty
  | '*' :: ps, s => (suffixes s).any (fun t => globMatch ps t)
  | '?' :: ps, s =>
      match s with
      | [] => false
      | _ :: cs => globMatch ps cs
  | q :: ps, s =>
      match s with
      | [] => false
      | c :: cs => (q = c) && globMatch ps cs

/-- String version of `globMatch`. -/
def globMatchS (pat path : String) : Bool := globMatch pat.data path.data

/-- Model of the `_match_path` step of watchdog's pattern filter: the path
must match some included pattern and no excluded pattern. -/
def matchPathB (included excluded : List String) (path : String) : Bool :=
  included.any (fun pat => globMatchS pat path) &&
    !(excluded.any (fun pat => globMatchS pat path))

/-- Model of watchdog's `match_any_paths`: some collected path passes the
filter. -/
def matchAnyPaths (paths included excluded : List String) : Bool :=
  paths.any (matchPathB included excluded)

/-- Paths collected by `PatternMatchingEventHandler.dispatch`: the
destination path when the event has one, then the source path when it is
nonempty. -/
def eventPaths (e : FsEvent) : List String :=
  (match e.dest_path with
   | some d => [d]
   | none => []) ++ (if e.src_path = "" then [] else [e.src_path])

/-- Model of `PatternMatchingEventHandler.dispatch` with the constructor
arguments used in `ContainerNotifier.__init__`: `patterns=None` means the
included patterns default to the match-all pattern, and the event is routed
to the handler (`on_created`, `on_modified` and `on_moved` are all assigned
`__change_handler`) when it survives the directory check and the pattern
filter. -/
def dispatchReaches (ignore_directories : Bool) (ignore_patterns : List String)
    (e : FsEvent) : Bool :=
  if ignore_directories && e.is_directory then false
  else matchAnyPaths (eventPaths e) ["*"] ignore_patterns

/-- Event filter exactly as configured in `ContainerNotifier.__init__`:
`exclude_patterns = exclude_patterns if exclude_patterns else []` (so `None`
becomes the empty list), then
`PatternMatchingEventHandler(ignore_patterns=exclude_patterns, ignore_directories=False)`. -/
def reachesHandler (exclude_patterns : Option (List String)) (e : FsEvent) : Bool :=
  dispatchReaches false (exclude_patterns.getD []) e

/-! ## The notify transaction -/

/-- Outcome of one `container.exec_run` call: an ExecResult carrying the exit
code and the decoded output, or a `docker.errors.APIError` raised by the
transport layer. -/
inductive ExecOutcome where
  | ok (exit_code : Int) (output : String)
  | apiError
deriving DecidableEq

/-- Classification of a recovered `notify` failure, following the spec's
taxonomy: a non-zero exit code (`NonZeroExitError` in the source) or a
transport-level `docker.errors.APIError`. -/
inductive FailureClass where
  | commandFailure (exit_code : Int)
  | transportFailure
deriving DecidableEq

/-- Observable outcome of one `notify` invocation: the argv of every
`exec_run` call made, in order; the recovered failure classification
(`none` on success); and the log lines emitted. -/
structure NotifyResult where
  calls : List (List String)
  classification : Option FailureClass
  logs : List String
deriving DecidableEq

/-- Argv of the first transaction step, `['stat', '-c', '%a', absolute_path]`. -/
def statArgv (absolute_path : String) : List String :=
  ["stat", "-c", "%a", absolute_path]

/-- Argv of the second transaction step, `['chmod', permissions, absolute_path]`. -/
def chmodArgv (permissions absolute_path : String) : List String :=
  ["chmod", permissions, absolute_path]

/-- Whitespace test used by `str.strip()` (the whitespace characters that can
surround a permission mode string). -/
def isStripChar (c : Char) : Bool :=
  c = ' ' || c = '\t' || c = '\n' || c = '\r'

/-- Model of `str.strip()`: drop whitespace from both ends. -/
def stripChars (s : String) : String :=
  String.mk (((s.data.dropWhile isStripChar).reverse.dropWhile isStripChar).reverse)

/-- Model of `ContainerNotifier.notify`. The container execution capability
is the oracle `exec` (argv and privileged flag to outcome; the source always
passes `privileged=True`). The try/except of the source is compiled away:
the try block can only raise `docker.errors.APIError` (from `exec_run`,
modelled as the `apiError` outcome) or the explicitly raised
`NonZeroExitError`, and each except clause turns the exception into log
lines, so `notify` is a total function — no exception escapes it. The
`if response:` guard before the success log is always true (`exec_run`
returns a nonempty named tuple), so the success path always logs the
stripped output of the final command. -/
def notify (exec : List String → Bool → ExecOutcome)
    (container_name absolute_path : String) : NotifyResult :=
  let infoLog :=
    "Notifying container " ++ container_name ++ " about change in " ++ absolute_path
  let apiErrorLog :=
    "Failed to notify container " ++ container_name ++ " about change in " ++ absolute_path
  match exec (statArgv absolute_path) true with
  | .apiError =>
      { calls := [statArgv absolute_path]
        classification := some .transportFailure
        logs := [infoLog, apiErrorLog] }
  | .ok exit1 out1 =>
      if exit1 ≠ 0 then
        { calls := [statArgv absolute_path]
          classification := some (.commandFailure exit1)
          logs := [infoLog, "Exec run returned non-zero exit code: " ++ toString exit1] }
      else
        let permissions := stripChars out1
        match exec (chmodArgv permissions absolute_path) true with
        | .apiError =>
            { calls := [statArgv absolute_path, chmodArgv permissions absolute_path]
              classification := some .transportFailure
              logs := [infoLog, apiErrorLog] }
        | .ok exit2 out2 =>
            if exit2 ≠ 0 then
              { calls := [statArgv absolute_path, chmodArgv permissions absolute_path]
                classification := some (.commandFailure exit2)
                logs := [infoLog, "Exec run returned non-zero exit code: " ++ toString exit2] }
            else
              { calls := [statArgv absolute_path, chmodArgv permissions absolute_path]
                classification := none
                logs := [infoLog, stripChars out2] }

/-- Exec oracle of a concrete scenario where the stat step fails with exit
code 1. -/
def execStatFails : List String → Bool → ExecOutcome := fun argv _ =>
  if argv = statArgv "/app/f.py" then ExecOutcome.ok 1 "" else ExecOutcome.ok 0 ""

/-- Exec oracle of the concrete success scenario: stat reports mode `644`
with a trailing newline, chmod succeeds with empty output. -/
def execHappy : List String → Bool → ExecOutcome := fun argv _ =>
  if argv = statArgv "/app/f.py" then ExecOutcome.ok 0 "644\n"
  else if argv = chmodArgv "644" "/app/f.py" then ExecOutcome.ok 0 ""
  else ExecOutcome.apiError

/-- Exec oracle whose transport always fails with `docker.errors.APIError`. -/
def execApiError : List String → Bool → ExecOutcome := fun _ _ => ExecOutcome.apiError

/-! ## Helper lemmas about the debounce gate -/

/-- Running the gate over a concatenation threads the cell through the first
part. -/
theorem stateAfter_append (d : ℚ) (s : Option ℚ) (l1 l2 : List Invocation) :
    stateAfter d s (l1 ++ l2) = stateAfter d (stateAfter d s l1) l2 := by
  induction l1 generalizing s with
  | nil => rfl
  | cons inv rest ih =>
      simp only [List.cons_append, stateAfter]
      exact ih _

/-- A run that executes nothing leaves the `old_time` cell unchanged. -/
theorem execCount_zero_stateAfter (d : ℚ) (s : Option ℚ) (l : List Invocation)
    (h : execCount d s l = 0) : stateAfter d s l = s := by
  induction l with
  | nil => rfl
  | cons inv rest ih =>
      cases hf : gateFires d s inv.arrival with
      | true =>
          rw [execCount, hf, if_pos rfl] at h
          omega
      | false =>
          rw [execCount, hf] at h
          simp only [Bool.false_eq_true, if_false] at h
          rw [stateAfter, hf]
          simp only [Bool.false_eq_true, if_false]
          exact ih h

/-- If every invocation arrives strictly less than the cooldown after the
recorded completion instant, none of them executes. -/
theorem execCount_zero_of_lt (d c : ℚ) (l : List Invocation)
    (h : ∀ inv ∈ l, inv.arrival - c < d) : execCount d (some c) l = 0 := by
  induction l with
  | nil => rfl
  | cons inv rest ih =>
      have hf : gateFires d (some c) inv.arrival = false := by
        simp only [gateFires, decide_eq_false_iff_not, ge_iff_le, not_le]
        exact h inv (List.mem_cons_self inv rest)
      rw [execCount, hf]
      simp only [Bool.false_eq_true, if_false]
      exact ih (fun i hi => h i (List.mem_cons_of_mem _ hi))

/-- The counterpart of `stateAfter_append` for the class-level shared cell. -/
theorem sharedStateAfter_append (d : ℚ) (s : Option ℚ) (l1 l2 : List HandlerCall) :
    sharedStateAfter d s (l1 ++ l2) = sharedStateAfter d (sharedStateAfter d s l1) l2 := by
  induction l1 generalizing s with
  | nil => rfl
  | cons c rest ih =>
      simp only [List.cons_append, sharedStateAfter]
      exact ih _

/-! ## Claim theorems: debounce gate -/

/-- C1: for every sequence of invocations of the debounced change handler the
wrapped operation executes at most once per cooldown window measured from the
completion timestamp of the previous execution (two executions with no
execution between them are at least `d` apart, completion-to-arrival); for
cooldown `d = 2` and `n` invocations arriving at `0, 1/10, ..., (n-1)/10`
(all within one window, i.e. `n ≤ 20`) exactly one invocation executes; and a
suppressed invocation returns the `None` sentinel without executing the
operation and without touching the cell. -/
theorem debounce_once_per_window :
    (∀ (d : ℚ) (pre : List Invocation) (a : Invocation) (mid : List Invocation)
        (b : Invocation),
        gateFires d (stateAfter d none pre) a.arrival = true →
        execCount d (some (a.arrival + a.dur)) mid = 0 →
        gateFires d (stateAfter d none (pre ++ a :: mid)) b.arrival = true →
        b.arrival - (a.arrival + a.dur) ≥ d) ∧
    (∀ n : ℕ, 1 ≤ n → n ≤ 20 → execCount 2 none (burst n) = 1) ∧
    (∀ (α : Type) (d : ℚ) (op : Invocation → α) (old : Option ℚ) (inv : Invocation),
        gateFires d old inv.arrival = false →
        debounceStep d op old inv = (none, old)) := by
  refine ⟨?_, ?_, ?_⟩
  · intro d pre a mid b hA hmid hB
    have h1 : stateAfter d none (pre ++ a :: mid) = some (a.arrival + a.dur) := by
      rw [stateAfter_append]
      rw [stateAfter, hA]
      simp only [if_pos]
      exact execCount_zero_stateAfter _ _ _ hmid
    rw [h1] at hB
    simp only [gateFires, decide_eq_true_eq] at hB
    exact hB
  · intro n h1 h2
    obtain ⟨m, rfl⟩ : ∃ m, n = m + 1 := ⟨n - 1, by omega⟩
    rw [burst, List.range_succ_eq_map, List.map_cons, List.map_map]
    have h0 : gateFires 2 none (burstInv 0).arrival = true := rfl
    rw [execCount, h0, if_pos rfl]
    have hz : execCount 2 (some ((burstInv 0).arrival + (burstInv 0).dur))
        ((List.range m).map (burstInv ∘ Nat.succ)) = 0 := by
      apply execCount_zero_of_lt
      intro inv hinv
      obtain ⟨k, hk, rfl⟩ := List.mem_map.mp hinv
      have hk19 : k < 19 := by
        have := List.mem_range.mp hk
        omega
      show ((k + 1 : ℕ) : ℚ) / 10 - (((0 : ℕ) : ℚ) / 10 + 0) < 2
      push_cast
      have hkq : (k : ℚ) < 19 := by exact_mod_cast hk19
      linarith
    rw [hz]
  · intro α d op old inv h
    rw [debounceStep, h]
    simp only [Bool.false_eq_true, if_false]

/-- Witness for C1: in the burst with three invocations exactly one executes,
and the suppressed invocation at `t = 1` after a completion at `t = 0` returns
the sentinel with the cell unchanged. -/
theorem debounce_once_per_window_witness :
    execCount 2 none (burst 3) = 1 ∧
    debounceStep 2 (fun _ => (0 : ℕ)) (some 0) ⟨1, 0⟩ = (none, some 0) := by
  have hgate : gateFires 2 (some 0) (1 : ℚ) = false := by simp [gateFires]
  exact ⟨debounce_once_per_window.2.1 3 (by decide) (by decide),
    debounce_once_per_window.2.2 ℕ 2 (fun _ => 0) (some 0) ⟨1, 0⟩ hgate⟩

/-- C5: the gate admits a call when no previous execution has occurred or when
the elapsed time since the previous execution's completion is at least the
cooldown; in that case it runs the operation, returns its result and records
the completion timestamp; with `d = 2`, an invocation at `t = 0` on a fresh
gate executes, and an invocation arriving `21/10` after a completion also
executes. -/
theorem debounce_admits_after_cooldown :
    (∀ (α : Type) (d : ℚ) (op : Invocation → α) (old : Option ℚ) (inv : Invocation),
        old = none ∨ (∃ c, old = some c ∧ inv.arrival - c ≥ d) →
        debounceStep d op old inv = (some (op inv), some (inv.arrival + inv.dur))) ∧
    (∀ (α : Type) (op : Invocation → α) (dur0 dur1 c : ℚ),
        debounceStep 2 op none ⟨0, dur0⟩ = (some (op ⟨0, dur0⟩), some (0 + dur0)) ∧
        debounceStep 2 op (some c) ⟨c + 21 / 10, dur1⟩ =
          (some (op ⟨c + 21 / 10, dur1⟩), some (c + 21 / 10 + dur1))) := by
  constructor
  · rintro α d op old inv (rfl | ⟨c, rfl, hge⟩)
    · rfl
    · have : gateFires d (some c) inv.arrival = true := by
        simp only [gateFires, decide_eq_true_eq]
        exact hge
      rw [debounceStep, this, if_pos rfl]
  · intro α op dur0 dur1 c
    constructor
    · rfl
    · have : gateFires 2 (some c) (c + 21 / 10) = true := by
        simp only [gateFires, decide_eq_true_eq, ge_iff_le]
        linarith
      rw [debounceStep, this, if_pos rfl]

/-- Witness for C5: from a completion recorded at `t = 5`, an invocation at
`t = 8` executes and records completion `8 + 0`. -/
theorem debounce_admits_after_cooldown_witness :
    debounceStep 2 (fun _ => (0 : ℕ)) (some 5) ⟨8, 0⟩ = (some 0, some (8 + 0)) :=
  debounce_admits_after_cooldown.1 ℕ 2 (fun _ => 0) (some 5) ⟨8, 0⟩
    (Or.inr ⟨5, rfl, by norm_num⟩)

/-- C7 counterexample: two handler calls on two distinct ContainerNotifier
instances (instance 0 at `t = 0`, instance 1 at `t = 1`, cooldown 2).  With
instance 0's execution present, instance 1's call is suppressed; with it
absent, the same call executes — so an execution through one instance's gate
does affect whether an invocation on the other instance's gate executes, and
the debounce state is not per-instance. -/
theorem notifier_shared_debounce_cex :
    sharedFiresAt 2 [⟨0, 0, 0⟩, ⟨1, 1, 0⟩] 1 = false ∧
    sharedFiresAt 2 [⟨1, 1, 0⟩] 0 = true ∧
    (⟨0, 0, 0⟩ : HandlerCall).inst ≠ (⟨1, 1, 0⟩ : HandlerCall).inst := by
  refine ⟨?_, ?_, ?_⟩
  · simp [sharedFiresAt, sharedStateAfter, gateFires]
  · simp [sharedFiresAt, sharedStateAfter, gateFires]
  · decide

/-- C7 (amended): all ContainerNotifier instances share a single debounce
state — the decorator runs once at class-definition time, so `old_time` is
one cell shared by every instance.  The gate's behaviour is independent of
the `self` argument (a run of interleaved handler calls equals the
single-gate run on the time data alone), and an execution through one
instance's gate suppresses the next invocation through any instance's gate
arriving within the cooldown window of its completion. -/
theorem notifier_debounce_state_shared :
    (∀ (d : ℚ) (old : Option ℚ) (calls : List HandlerCall),
        sharedStateAfter d old calls =
          stateAfter d old (calls.map (fun c => ⟨c.arrival, c.dur⟩))) ∧
    (∀ (d : ℚ) (pre : List HandlerCall) (callA callB : HandlerCall),
        gateFires d (sharedStateAfter d none pre) callA.arrival = true →
        callB.arrival - (callA.arrival + callA.dur) < d →
        sharedFiresAt d (pre ++ [callA, callB]) (pre.length + 1) = false) := by
  constructor
  · intro d old calls
    induction calls generalizing old with
    | nil => rfl
    | cons c rest ih => simp only [sharedStateAfter, stateAfter, List.map_cons, ih]
  · intro d pre callA callB hA hlt
    have hstate : sharedStateAfter d none (pre ++ [callA]) =
        some (callA.arrival + callA.dur) := by
      rw [sharedStateAfter_append, sharedStateAfter, hA]
      simp only [if_pos]
      rfl
    have hgate : gateFires d (some (callA.arrival + callA.dur)) callB.arrival = false := by
      simp only [gateFires, decide_eq_false_iff_not, ge_iff_le, not_le]
      exact hlt
    have hshape : pre ++ [callA, callB] = (pre ++ [callA]) ++ [callB] := by simp
    have hlen : pre.length + 1 = (pre ++ [callA]).length := by simp
    rw [hshape, hlen]
    simp only [sharedFiresAt, List.drop_left, List.take_left]
    rw [hstate]
    exact hgate

/-- Witness for C7's amended theorem: with a fresh gate, a call of instance 0
at `t = 0` executes and the call of instance 1 at `t = 1` is suppressed. -/
theorem notifier_debounce_state_shared_witness :
    sharedFiresAt 2 (([] : List HandlerCall) ++ [⟨0, 0, 0⟩, ⟨1, 1, 0⟩])
      (List.length ([] : List HandlerCall) + 1) = false :=
  notifier_debounce_state_shared.2 2 [] ⟨0, 0, 0⟩ ⟨1, 1, 0⟩ rfl (by norm_num)

/-! ## Helper lemmas about path translation -/

/-- Common-prefix length of a list with an extension of itself is the whole
list. -/
theorem commonPrefixLen_self_append (sl rest : List String) :
    commonPrefixLen sl (sl ++ rest) = sl.length := by
  induction sl with
  | nil =>
      cases rest with
      | nil => rfl
      | cons b bs => rfl
  | cons a as ih => simp [commonPrefixLen, ih]

/-- Backslash normalisation distributes over string concatenation. -/
theorem backslashToSlash_append (a b : String) :
    backslashToSlash (a ++ b) = backslashToSlash a ++ backslashToSlash b := by
  cases a with
  | mk da =>
      cases b with
      | mk db =>
          show String.mk ((da ++ db).map _) = String.mk (da.map _) ++ String.mk (db.map _)
          have e : String.mk (da.map (fun c => if c = '\\' then '/' else c)) ++
              String.mk (db.map (fun c => if c = '\\' then '/' else c)) =
              String.mk (da.map (fun c => if c = '\\' then '/' else c) ++
                db.map (fun c => if c = '\\' then '/' else c)) := rfl
          rw [e]
          exact congrArg String.mk (List.map_append _ da db)

/-- Backslash normalisation of a one-character separator string yields the
POSIX separator for both host separator conventions. -/
theorem backslashToSlash_singleton (sep : Char) (hsep : sep = '/' ∨ sep = '\\') :
    backslashToSlash (String.singleton sep) = String.singleton '/' := by
  rcases hsep with rfl | rfl <;> rfl

/-- Backslash normalisation is the identity on a string without backslash
characters. -/
theorem backslashToSlash_id (s : String) (h : ∀ c ∈ s.data, c ≠ '\\') :
    backslashToSlash s = s := by
  cases s with
  | mk ds =>
      apply congrArg String.mk
      have he : ∀ c ∈ ds, (fun c => if c = '\\' then '/' else c) c = id c := by
        intro c hc
        simp [h c hc]
      rw [List.map_congr_left he, List.map_id]

/-- Normalising the separator-joined components equals joining them with the
POSIX separator, when no component contains a backslash. -/
theorem backslashToSlash_joinComponents (sep : Char) (hsep : sep = '/' ∨ sep = '\\')
    (l : List String) (h : ∀ r ∈ l, ∀ c ∈ r.data, c ≠ '\\') :
    backslashToSlash (joinComponents sep l) = joinComponents '/' l := by
  induction l with
  | nil => rfl
  | cons a rest ih =>
      cases rest with
      | nil => exact backslashToSlash_id a (h a (List.mem_cons_self a []))
      | cons b rest2 =>
          have e1 : joinComponents sep (a :: b :: rest2) =
              a ++ String.singleton sep ++ joinComponents sep (b :: rest2) := rfl
          have e2 : joinComponents '/' (a :: b :: rest2) =
              a ++ String.singleton '/' ++ joinComponents '/' (b :: rest2) := rfl
          rw [e1, e2, backslashToSlash_append, backslashToSlash_append,
            backslashToSlash_id a (h a (List.mem_cons_self a _)),
            backslashToSlash_singleton sep hsep,
            ih (fun r hr => h r (List.mem_cons_of_mem _ hr))]

/-- Relative-path computation when the path lies strictly under the start
directory: the result is the remaining components joined with the platform
separator. -/
theorem relpath_under (sep : Char) (path start : String) (rest : List String)
    (hsplit : splitNonEmpty sep path = splitNonEmpty sep start ++ rest)
    (hne : rest ≠ []) :
    relpath sep path start = joinComponents sep rest := by
  simp only [relpath, hsplit, commonPrefixLen_self_append, Nat.sub_self,
    List.replicate_zero, List.nil_append, List.drop_left]
  rw [if_neg hne]

/-- A string starting with a slash still starts with a slash after appending
anything. -/
theorem headIsSlash_append (a b : String) (h : headIsSlash a = true) :
    headIsSlash (a ++ b) = true := by
  cases a with
  | mk da =>
      cases b with
      | mk db =>
          cases da with
          | nil => exact absurd h (by simp [headIsSlash])
          | cons c cs =>
              have e : String.mk (c :: cs) ++ String.mk db = String.mk (c :: (cs ++ db)) := rfl
              rw [e]
              exact h

/-- The POSIX join of an absolute left part is absolute. -/
theorem headIsSlash_posixJoin (a b : String) (h : headIsSlash a = true) :
    headIsSlash (posixJoin a b) = true := by
  rw [posixJoin]
  split_ifs with h1 h2
  · exact h1
  · exact headIsSlash_append a b h
  · exact headIsSlash_append (a ++ "/") b (headIsSlash_append a "/" h)

/-! ## Claim theorems: path translation and move events -/

/-- C2: for a host path strictly under the host directory, the change
handler's translation yields the container directory POSIX-joined with the
path's components relative to the host directory, joined by forward slashes,
for both host separator conventions (POSIX slash and Windows backslash); and
whenever the container directory is POSIX-absolute the translated path is
POSIX-absolute. -/
theorem translate_host_path_correct :
    (∀ (sep : Char) (host_dir container_dir host_path : String) (rest : List String),
        sep = '/' ∨ sep = '\\' →
        splitNonEmpty sep host_path = splitNonEmpty sep host_dir ++ rest →
        rest ≠ [] →
        (∀ r ∈ rest, ∀ c ∈ r.data, c ≠ '\\') →
        translateHostPath sep host_dir container_dir host_path =
          posixJoin container_dir (joinComponents '/' rest)) ∧
    (∀ a b : String, headIsSlash a = true → headIsSlash (posixJoin a b) = true) := by
  constructor
  · intro sep hd cd hp rest hsep hsplit hne hnb
    rw [translateHostPath, relpath_under sep hp hd rest hsplit hne,
      backslashToSlash_joinComponents sep hsep rest hnb]
  · exact headIsSlash_posixJoin

/-- Witness for C2: the spec's example on a POSIX host, the same binding on a
Windows host (backslash separators), and absoluteness of the joined result. -/
theorem translate_host_path_correct_witness :
    translateHostPath '/' "/home/u/proj" "/app" "/home/u/proj/src/main.py" =
      "/app/src/main.py" ∧
    translateHostPath '\\' "\\home\\u\\proj" "/app" "\\home\\u\\proj\\src\\main.py" =
      "/app/src/main.py" ∧
    headIsSlash (posixJoin "/app" "src/main.py") = true := by
  refine ⟨?_, ?_, ?_⟩
  · exact (translate_host_path_correct.1 '/' "/home/u/proj" "/app"
      "/home/u/proj/src/main.py" ["src", "main.py"] (Or.inl rfl) (by decide) (by decide)
      (by decide)).trans (by decide)
  · exact (translate_host_path_correct.1 '\\' "\\home\\u\\proj" "/app"
      "\\home\\u\\proj\\src\\main.py" ["src", "main.py"] (Or.inr rfl) (by decide) (by decide)
      (by decide)).trans (by decide)
  · exact translate_host_path_correct.2 "/app" "src/main.py" (by decide)

/-- C6: for every move/rename event (an event carrying a destination path)
the path used downstream by the change handler is the destination path, never
the source path, and hence the notified path is the translation of the
destination. -/
theorem move_event_uses_dest_path :
    (∀ (e : FsEvent) (d : String), e.dest_path = some d → eventHostPath e = d) ∧
    (∀ (sep : Char) (host_dir container_dir : String) (e : FsEvent) (d : String),
        e.dest_path = some d →
        changeHandlerPath sep host_dir container_dir e =
          translateHostPath sep host_dir container_dir d) := by
  have hsel : ∀ (e : FsEvent) (d : String), e.dest_path = some d → eventHostPath e = d := by
    intro e d h
    simp only [eventHostPath, h]
  exact ⟨hsel, fun sep hd cd e d h => by rw [changeHandlerPath, hsel e d h]⟩

/-- Witness for C6: the move with source `/H/a.txt` and destination
`/H/b.txt` notifies the translation of `b.txt` and not that of `a.txt`. -/
theorem move_event_uses_dest_path_witness :
    eventHostPath ⟨"/H/a.txt", some "/H/b.txt", false⟩ = "/H/b.txt" ∧
    changeHandlerPath '/' "/H" "/app" ⟨"/H/a.txt", some "/H/b.txt", false⟩ = "/app/b.txt" ∧
    changeHandlerPath '/' "/H" "/app" ⟨"/H/a.txt", some "/H/b.txt", false⟩ ≠
      translateHostPath '/' "/H" "/app" "/H/a.txt" := by
  refine ⟨?_, ?_, ?_⟩
  · exact move_event_uses_dest_path.1 ⟨"/H/a.txt", some "/H/b.txt", false⟩ "/H/b.txt" rfl
  · exact (move_event_uses_dest_path.2 '/' "/H" "/app" ⟨"/H/a.txt", some "/H/b.txt", false⟩
      "/H/b.txt" rfl).trans (by decide)
  · decide

/-! ## Helper lemmas about the dispatch filter -/

/-- Empty suffix is always among the suffixes. -/
theorem nil_mem_suffixes (s : List Char) : [] ∈ suffixes s := by
  induction s with
  | nil => exact List.mem_singleton.mpr rfl
  | cons c cs ih => exact List.mem_cons_of_mem _ ih

/-- A single star matches every character sequence. -/
theorem globMatch_star (s : List Char) : globMatch ['*'] s = true := by
  show (suffixes s).any (fun t => globMatch [] t) = true
  exact List.any_eq_true.mpr ⟨[], nil_mem_suffixes s, rfl⟩

/-- The match-all pattern accepts every path. -/
theorem globMatchS_star (path : String) : globMatchS "*" path = true :=
  globMatch_star path.data

/-! ## Claim theorems: event filtering -/

/-- C8 counterexample: a directory-modification event under the watched root,
with no exclude patterns configured, reaches the gated change handler — the
source passes `ignore_directories=False`, so directory events are not
ignored. -/
theorem directory_events_not_ignored_cex :
    (⟨"/H/sub", none, true⟩ : FsEvent).is_directory = true ∧
    reachesHandler none ⟨"/H/sub", none, true⟩ = true := by decide

/-- C8 (amended): the event filter does not ignore directory events — with
`ignore_directories=False` the directory flag plays no role at all in whether
an event reaches the gated handler; directory events are filtered only by
the exclude patterns, like file events. -/
theorem dispatch_ignores_directory_flag :
    ∀ (pats : Option (List String)) (src : String) (dp : Option String) (b1 b2 : Bool),
      reachesHandler pats ⟨src, dp, b1⟩ = reachesHandler pats ⟨src, dp, b2⟩ := by
  intro pats src dp b1 b2
  rfl

/-- C10 counterexample: the move event with source `/H/a.txt` (matching no
exclude pattern) and destination `/H/b.tmp` (matching `*.tmp`) is forwarded
to the handler even though its downstream (notified) path is the excluded
destination — so an event whose path matches an exclude pattern can still
produce a notification. -/
theorem exclusion_filter_move_cex :
    globMatchS "*.tmp" (eventHostPath ⟨"/H/a.txt", some "/H/b.tmp", false⟩) = true ∧
    reachesHandler (some ["*.tmp"]) ⟨"/H/a.txt", some "/H/b.tmp", false⟩ = true := by
  decide

/-- C10 (amended): for a non-move event the filter forwards the event exactly
when its path matches no exclude pattern; for a move event the filter
forwards the event when either the destination or the source path escapes all
exclude patterns (so a move whose destination matches a pattern still reaches
the handler when its source does not); and passing `None` for
exclude_patterns is equivalent to passing the empty pattern list. -/
theorem exclusion_filtering :
    (∀ (pats : List String) (src : String) (b : Bool), src ≠ "" →
        reachesHandler (some pats) ⟨src, none, b⟩ =
          !(pats.any (fun pat => globMatchS pat src))) ∧
    (∀ (pats : List String) (src dst : String) (b : Bool), src ≠ "" →
        reachesHandler (some pats) ⟨src, some dst, b⟩ =
          (!(pats.any (fun pat => globMatchS pat dst)) ||
            !(pats.any (fun pat => globMatchS pat src)))) ∧
    (∀ e : FsEvent, reachesHandler none e = reachesHandler (some []) e) := by
  refine ⟨?_, ?_, ?_⟩
  · intro pats src b hsrc
    simp [reachesHandler, dispatchReaches, matchAnyPaths, eventPaths, matchPathB,
      hsrc, globMatchS_star]
  · intro pats src dst b hsrc
    simp [reachesHandler, dispatchReaches, matchAnyPaths, eventPaths, matchPathB,
      hsrc, globMatchS_star]
  · intro e
    rfl

/-- Witness for C10's amended theorem: with exclude pattern `*.tmp` a change
under `/H/x.tmp` produces no notification while a change under `/H/x.txt`
does. -/
theorem exclusion_filtering_witness :
    reachesHandler (some ["*.tmp"]) ⟨"/H/x.tmp", none, false⟩ = false ∧
    reachesHandler (some ["*.tmp"]) ⟨"/H/x.txt", none, false⟩ = true := by
  constructor
  · exact (exclusion_filtering.1 ["*.tmp"] "/H/x.tmp" false (by decide)).trans (by decide)
  · exact (exclusion_filtering.1 ["*.tmp"] "/H/x.txt" false (by decide)).trans (by decide)

/-! ## Claim theorems: the notify transaction -/

/-- C3: when the stat step returns a non-zero exit code, the chmod step is
never invoked (the call trace is exactly the stat call), the failure is
classified as a CommandFailure carrying that exit code, and the exit code is
logged; notify returns normally (in the embedding it is a total function, so
nothing is propagated to the caller). -/
theorem notify_stat_failure_aborts :
    ∀ (exec : List String → Bool → ExecOutcome) (cn path : String) (code : ℤ)
      (out : String),
      exec (statArgv path) true = ExecOutcome.ok code out → code ≠ 0 →
      (notify exec cn path).calls = [statArgv path] ∧
      (notify exec cn path).classification = some (FailureClass.commandFailure code) ∧
      ("Exec run returned non-zero exit code: " ++ toString code) ∈
        (notify exec cn path).logs := by
  intro exec cn path code out h hcode
  simp only [statArgv] at h
  refine ⟨?_, ?_, ?_⟩ <;> simp [notify, statArgv, chmodArgv, h, hcode]

/-- Witness for C3: a concrete oracle whose stat step exits with code 1. -/
theorem notify_stat_failure_aborts_witness :
    execStatFails (statArgv "/app/f.py") true = ExecOutcome.ok 1 "" ∧
    (notify execStatFails "web" "/app/f.py").calls = [statArgv "/app/f.py"] ∧
    (notify execStatFails "web" "/app/f.py").classification =
      some (FailureClass.commandFailure 1) ∧
    ("Exec run returned non-zero exit code: " ++ toString (1 : ℤ)) ∈
      (notify execStatFails "web" "/app/f.py").logs := by
  have h := notify_stat_failure_aborts execStatFails "web" "/app/f.py" 1 ""
    (by decide) (by decide)
  exact ⟨by decide, h.1, h.2.1, h.2.2⟩

/-- C4: notify never propagates an error to its caller.  For every behaviour
of the exec capability: the stat step runs first and every step runs at most
once (no retry, no re-queue); the invocation ends with success, with a
logged transportFailure (an APIError at either step), or with a logged
commandFailure carrying the non-zero exit code; and in the embedding notify
is a total function — both exception kinds of the try block are caught, so
no exception escapes. -/
theorem notify_recovers_all_failures :
    ∀ (exec : List String → Bool → ExecOutcome) (cn path : String),
      ((notify exec cn path).calls = [statArgv path] ∨
        ∃ m, (notify exec cn path).calls = [statArgv path, chmodArgv m path]) ∧
      (notify exec cn path).calls.Nodup ∧
      ((notify exec cn path).classification = none ∨
        (notify exec cn path).classification = some FailureClass.transportFailure ∨
        ∃ c, c ≠ 0 ∧ (notify exec cn path).classification =
          some (FailureClass.commandFailure c)) ∧
      ((notify exec cn path).classification = some FailureClass.transportFailure →
        ("Failed to notify container " ++ cn ++ " about change in " ++ path) ∈
          (notify exec cn path).logs) ∧
      (∀ c : ℤ, (notify exec cn path).classification =
          some (FailureClass.commandFailure c) →
        ("Exec run returned non-zero exit code: " ++ toString c) ∈
          (notify exec cn path).logs) := by
  intro exec cn path
  rcases h1 : exec (statArgv path) true with ⟨exit1, out1⟩ | _
  · simp only [statArgv] at h1
    by_cases hz1 : exit1 = 0
    · subst hz1
      rcases h2 : exec (chmodArgv (stripChars out1) path) true with ⟨exit2, out2⟩ | _
      · simp only [statArgv, chmodArgv] at h2
        by_cases hz2 : exit2 = 0
        · subst hz2
          simp [notify, statArgv, chmodArgv, h1, h2]
        · simp [notify, statArgv, chmodArgv, h1, h2, hz2]
      · simp only [statArgv, chmodArgv] at h2
        simp [notify, statArgv, chmodArgv, h1, h2]
    · simp [notify, statArgv, chmodArgv, h1, hz1]
  · simp only [statArgv] at h1
    simp [notify, statArgv, chmodArgv, h1]

/-- Witness for C4: with an always-failing transport the invocation is
classified transportFailure and the failure is logged. -/
theorem notify_recovers_all_failures_witness :
    (notify execApiError "web" "/app/f.py").classification =
      some FailureClass.transportFailure ∧
    ("Failed to notify container " ++ "web" ++ " about change in " ++ "/app/f.py") ∈
      (notify execApiError "web" "/app/f.py").logs := by
  refine ⟨by decide, ?_⟩
  exact (notify_recovers_all_failures execApiError "web" "/app/f.py").2.2.2.1 (by decide)

/-- C9: on the success path the chmod step is invoked with the mode equal to
the stat output stripped of surrounding whitespace; when the chmod step also
exits with code 0 the transaction completes with no failure classification,
and the final command's stripped output is among the log lines (so it is
logged whenever it is non-empty). -/
theorem notify_success_end_to_end :
    ∀ (exec : List String → Bool → ExecOutcome) (cn path out1 out2 : String),
      exec (statArgv path) true = ExecOutcome.ok 0 out1 →
      exec (chmodArgv (stripChars out1) path) true = ExecOutcome.ok 0 out2 →
      (notify exec cn path).calls = [statArgv path, chmodArgv (stripChars out1) path] ∧
      (notify exec cn path).classification = none ∧
      stripChars out2 ∈ (notify exec cn path).logs := by
  intro exec cn path out1 out2 h1 h2
  simp only [statArgv, chmodArgv] at h1 h2
  refine ⟨?_, ?_, ?_⟩ <;> simp [notify, statArgv, chmodArgv, h1, h2]

/-- Witness for C9: stat output `644` with a trailing newline gives mode
`644`, the chmod call uses it, and the transaction records no failure. -/
theorem notify_success_end_to_end_witness :
    stripChars "644\n" = "644" ∧
    (notify execHappy "web" "/app/f.py").calls =
      [statArgv "/app/f.py", chmodArgv "644" "/app/f.py"] ∧
    (notify execHappy "web" "/app/f.py").classification = none := by
  have h := notify_success_end_to_end execHappy "web" "/app/f.py" "644\n" ""
    (by decide) (by decide)
  exact ⟨by decide, h.1.trans (by decide), h.2.1⟩

end DockerVolumeWatcher
